import Mathlib

/-!
# Verification of the Quantify rate limiter

Shallow embedding of the login/request rate limiter of the Quantify
repository (`models/rate_limit.py` and `utils/rate_limiter.py`) and proofs
of its specified properties.

Modelling choices:
* Time is modelled as `Int` seconds (the source uses `datetime.utcnow()`
  values and `timedelta`s; all comparisons and arithmetic are on those).
* The persisted row for one (identifier, identifier_type, endpoint) triple
  is modelled by `Option Record`: `none` when no row exists for the triple.
  All operations of `RateLimit` act on a single triple, so the state passed
  around is the row of that triple.
* `record_attempt`'s probabilistic cleanup (1-in-100 chance of deleting
  rows whose `last_attempt` is older than 24 hours) is omitted: for the
  triple being operated on it either does nothing or deletes a row with
  `last_attempt < now - 24h`; in the latter case the subsequent failure
  path creates a fresh row `⟨1, now, now, none⟩`, which is exactly the
  value the window-reset path produces (`now - first_attempt > 15 min`
  holds since `first_attempt ≤ last_attempt < now - 24h`), and the success
  path deletes the row either way, so the single-triple result is the same.
* Python `int(td.total_seconds() / 60)` truncates toward zero; the operand
  is strictly positive wherever it is evaluated, so it is modelled with
  `Int.toNat` followed by `Nat` division.
-/

namespace RateLimit

/-- One row of the `rate_limits` table, restricted to the fields the logic
reads and writes (`identifier`, `identifier_type`, `endpoint` are the key
of the row and are fixed by which state we are looking at). -/
structure Record where
  attempt_count : Nat
  first_attempt : Int
  last_attempt : Int
  blocked_until : Option Int
deriving Repr, DecidableEq

/-- The fixed 15-minute counting window, in seconds. -/
def windowSeconds : Int := 15 * 60

/-- Model of `RateLimit._get_limit_for_endpoint`: per-endpoint attempt limit,
`limits.get(endpoint, 5)`. -/
def get_limit_for_endpoint (endpoint : String) : Nat :=
  if endpoint = "login" then 5
  else if endpoint = "forgot_password" then 3
  else if endpoint = "reset_password" then 3
  else if endpoint = "verify_2fa" then 3
  else if endpoint = "register" then 5
  else 5

/-- Model of `RateLimit._get_block_duration_for_endpoint`: per-endpoint block
duration in seconds, `durations.get(endpoint, timedelta(minutes=30))`. -/
def get_block_duration_for_endpoint (endpoint : String) : Int :=
  if endpoint = "login" then 30 * 60
  else if endpoint = "forgot_password" then 60 * 60
  else if endpoint = "reset_password" then 60 * 60
  else if endpoint = "verify_2fa" then 15 * 60
  else if endpoint = "register" then 30 * 60
  else 30 * 60

/-- The status dictionary returned by `RateLimit.get_status`.
`time_remaining` is in seconds; `time_remaining_minutes` is
`int(time_remaining.total_seconds() / 60) + 1` in the source, modelled
with `Nat` division since the operand is strictly positive there. -/
structure Status where
  is_blocked : Bool
  attempts_used : Nat
  attempts_remaining : Nat
  total_attempts_allowed : Nat
  blocked_until : Option Int
  time_remaining : Option Int
  time_remaining_minutes : Option Nat
deriving Repr, DecidableEq

/-- Model of `RateLimit.get_status(identifier, identifier_type, endpoint)` for the
triple whose row is `record?`, called at `current_time`. Returns the
status dictionary together with the row as left in the store (the source
mutates and commits the row when it clears an expired block). -/
def get_status (endpoint : String) (current_time : Int)
    (record? : Option Record) : Status × Option Record :=
  let limit := get_limit_for_endpoint endpoint
  match record? with
  | none =>
      (⟨false, 0, limit, limit, none, none, none⟩, none)
  | some record =>
      let step : Bool × Option Int × Option Nat × Record :=
        match record.blocked_until with
        | some b =>
            if current_time < b then
              (true, some (b - current_time),
                some ((b - current_time).toNat / 60 + 1), record)
            else
              (false, none, none,
                { record with blocked_until := none, attempt_count := 0 })
        | none => (false, none, none, record)
      let is_blocked := step.1
      let time_remaining := step.2.1
      let time_remaining_minutes := step.2.2.1
      let record := step.2.2.2
      let attempts_used :=
        if current_time - record.first_attempt > windowSeconds then 0
        else record.attempt_count
      (⟨is_blocked, attempts_used, limit - attempts_used, limit,
        record.blocked_until, time_remaining, time_remaining_minutes⟩,
        some record)

/-- Model of `RateLimit.record_attempt(identifier, identifier_type, endpoint,
success)` for the triple whose row is `record?`, called at
`current_time`. Returns `record.blocked_until is not None` (for the
failure path; `False` for the success path) together with the row as left
in the store. -/
def record_attempt (endpoint : String) (current_time : Int) (success : Bool)
    (record? : Option Record) : Bool × Option Record :=
  if success then
    (false, none)
  else
    let record : Record :=
      match record? with
      | none => ⟨1, current_time, current_time, none⟩
      | some record =>
          if current_time - record.first_attempt > windowSeconds then
            ⟨1, current_time, current_time, none⟩
          else
            ⟨record.attempt_count + 1, record.first_attempt, current_time,
              record.blocked_until⟩
    let limit := get_limit_for_endpoint endpoint
    let record :=
      if limit ≤ record.attempt_count then
        { record with
            blocked_until :=
              some (current_time + get_block_duration_for_endpoint endpoint) }
      else record
    (record.blocked_until.isSome, some record)

/-- Invariant of rows the code writes: whenever `blocked_until` is set,
the attempt count has reached the endpoint's limit and the block extends
at least a full 15-minute window past `first_attempt`. -/
def BlockedInv (endpoint : String) (r : Record) : Prop :=
  ∀ b, r.blocked_until = some b →
    get_limit_for_endpoint endpoint ≤ r.attempt_count ∧
    r.first_attempt + windowSeconds ≤ b

/-- Iterated failed attempts: `apply_failures endpoint t n` is the row state
after `n` consecutive `record_attempt(..., success=False)` calls made at
times `t 0, t 1, ..., t (n-1)`, starting from no row. -/
def apply_failures (endpoint : String) (t : Nat → Int) : Nat → Option Record
  | 0 => none
  | n + 1 =>
      (record_attempt endpoint (t n) false (apply_failures endpoint t n)).2

end RateLimit

namespace RateLimiter

open RateLimit

/-- Which identifier key a dual-key result is attributed to. -/
inductive IdType where
  | ip
  | username
deriving Repr, DecidableEq

/-- Model of `utils/rate_limiter.check_rate_limit`: a `get_status` call, returning
`(status.is_blocked, status)` plus the row as left in the store. -/
def check_rate_limit (endpoint : String) (now : Int)
    (state : Option Record) : Bool × Status × Option Record :=
  let s := get_status endpoint now state
  (s.1.is_blocked, s.1, s.2)

/-- Model of `utils/rate_limiter.record_attempt`: a model-layer `record_attempt`
followed by a `get_status`, returning `(is_now_blocked, status)` plus the
row as left in the store. -/
def record_attempt_helper (endpoint : String) (now : Int) (success : Bool)
    (state : Option Record) : Bool × Status × Option Record :=
  let r := RateLimit.record_attempt endpoint now success state
  let s := get_status endpoint now r.2
  (r.1, s.1, s.2)

/-- Model of `utils/rate_limiter.rate_limit_check` for the login endpoint on a POST
carrying a username: checks the IP key first and, when the IP key is not
blocked, the username key. The first result component says whether the
request is rejected with 429 and, if so, which key's status the rejection
message is built from; the other components are the two rows as left in
the store. -/
def rate_limit_check_login (now : Int)
    (ipState userState : Option Record) :
    Option IdType × Option Record × Option Record :=
  let ipRes := check_rate_limit "login" now ipState
  if ipRes.1 then
    (some .ip, ipRes.2.2, userState)
  else
    let userRes := check_rate_limit "login" now userState
    if userRes.1 then
      (some .username, ipRes.2.2, userRes.2.2)
    else
      (none, ipRes.2.2, userRes.2.2)

/-- Model of `utils/rate_limiter.record_login_attempt`: records the attempt against
the IP key and the username key, then returns the most restrictive result:
`(is_blocked, key whose status is reported)`, plus the two rows as left in
the store. `none` in the second component models the non-blocked return,
which carries the username status. -/
def record_login_attempt (now : Int) (success : Bool)
    (ipState userState : Option Record) :
    (Bool × Option IdType) × Option Record × Option Record :=
  let ipRes := record_attempt_helper "login" now success ipState
  let userRes := record_attempt_helper "login" now success userState
  if userRes.1 then
    ((true, some .username), ipRes.2.2, userRes.2.2)
  else if ipRes.1 then
    ((true, some .ip), ipRes.2.2, userRes.2.2)
  else
    ((false, none), ipRes.2.2, userRes.2.2)

end RateLimiter

namespace RateLimit

/-- Every endpoint's attempt limit is at least 3: the static table only
holds the values 3 and 5, and the default is 5. -/
theorem three_le_limit (endpoint : String) :
    3 ≤ get_limit_for_endpoint endpoint := by
  unfold get_limit_for_endpoint
  repeat' split
  all_goals norm_num

/-- Every endpoint's block duration is at least the 15-minute window: the
static table only holds 15, 30 and 60 minutes, and the default is 30. -/
theorem window_le_duration (endpoint : String) :
    windowSeconds ≤ get_block_duration_for_endpoint endpoint := by
  unfold get_block_duration_for_endpoint windowSeconds
  repeat' split
  all_goals norm_num

/-- Characterisation of the row after `n ≥ 1` consecutive failures at times
`t 0, …, t (n-1)`, starting from no row, when every failure falls within
the 15-minute window opened by the first one: the count is `n`, the window
start is `t 0`, and `blocked_until` is set (to the last failure time plus
the block duration) exactly when `n` has reached the endpoint's limit. -/
theorem apply_failures_spec (endpoint : String) (t : Nat → Int) :
    ∀ n, 0 < n → (∀ i, i < n → t i - t 0 ≤ windowSeconds) →
      apply_failures endpoint t n =
        some ⟨n, t 0, t (n - 1),
          if get_limit_for_endpoint endpoint ≤ n then
            some (t (n - 1) + get_block_duration_for_endpoint endpoint)
          else none⟩ := by
  intro n
  induction n with
  | zero => intro h; omega
  | succ n ih =>
      intro _ hw
      have h3 := three_le_limit endpoint
      rcases Nat.eq_zero_or_pos n with h0 | h0
      · subst h0
        have h1 : ¬ get_limit_for_endpoint endpoint ≤ 1 := by omega
        show (record_attempt endpoint (t 0) false none).2 = _
        simp only [record_attempt, Bool.false_eq_true, if_false, if_neg h1]
      · have IH := ih h0 (fun i hi => hw i (Nat.lt_succ_of_lt hi))
        have hwin : ¬ (t n - t 0 > windowSeconds) := by
          have := hw n (Nat.lt_succ_self n)
          omega
        show (record_attempt endpoint (t n) false (apply_failures endpoint t n)).2 = _
        rw [IH]
        simp only [record_attempt, Bool.false_eq_true, if_false, if_neg hwin,
          Nat.add_sub_cancel]
        by_cases hl : get_limit_for_endpoint endpoint ≤ n + 1
        · simp only [if_pos hl]
        · have hn : ¬ get_limit_for_endpoint endpoint ≤ n := by omega
          simp only [if_neg hl, if_neg hn]

/-- The operation `record_attempt` preserves `BlockedInv`, provided the call is not made
before the row's window start (the code always stamps rows with the
current clock, so `first_attempt ≤ now` on every later call). This
justifies taking `BlockedInv` facts as hypotheses about stored rows. -/
theorem record_attempt_preserves_blockedInv (endpoint : String) (now : Int)
    (success : Bool) (state : Option Record)
    (hinv : ∀ r, state = some r → BlockedInv endpoint r)
    (hmono : ∀ r, state = some r → r.first_attempt ≤ now) :
    ∀ r', (record_attempt endpoint now success state).2 = some r' →
      BlockedInv endpoint r' := by
  intro r' hr' b hb
  have h3 := three_le_limit endpoint
  have hdur := window_le_duration endpoint
  have h1 : ¬ get_limit_for_endpoint endpoint ≤ 1 := by omega
  cases success with
  | true => simp [record_attempt] at hr'
  | false =>
      rcases state with _ | r
      · simp only [record_attempt, Bool.false_eq_true, if_false, if_neg h1,
          Option.some.injEq] at hr'
        subst hr'
        exact Option.noConfusion hb
      · have hfa := hmono r rfl
        by_cases hwin : now - r.first_attempt > windowSeconds
        · simp only [record_attempt, Bool.false_eq_true, if_false,
            if_pos hwin, if_neg h1, Option.some.injEq] at hr'
          subst hr'
          exact Option.noConfusion hb
        · by_cases hl : get_limit_for_endpoint endpoint ≤ r.attempt_count + 1
          · simp only [record_attempt, Bool.false_eq_true, if_false,
              if_neg hwin, if_pos hl, Option.some.injEq] at hr'
            subst hr'
            dsimp only at hb ⊢
            rw [Option.some.injEq] at hb
            exact ⟨hl, by omega⟩
          · simp only [record_attempt, Bool.false_eq_true, if_false,
              if_neg hwin, if_neg hl, Option.some.injEq] at hr'
            subst hr'
            dsimp only at hb ⊢
            have := (hinv r rfl b hb).1
            omega

/-- The operation `get_status` preserves `BlockedInv`: it either leaves the row alone or
clears the block entirely. -/
theorem get_status_preserves_blockedInv (endpoint : String) (now : Int)
    (state : Option Record)
    (hinv : ∀ r, state = some r → BlockedInv endpoint r) :
    ∀ r', (get_status endpoint now state).2 = some r' →
      BlockedInv endpoint r' := by
  intro r' hr' b hb
  rcases state with _ | r
  · simp [get_status] at hr'
  · rcases h : r.blocked_until with _ | b0
    · simp only [get_status, h, Option.some.injEq] at hr'
      subst hr'
      exact hinv r rfl b hb
    · by_cases hlt : now < b0
      · simp only [get_status, h, if_pos hlt, Option.some.injEq] at hr'
        subst hr'
        exact hinv r rfl b hb
      · simp only [get_status, h, if_neg hlt, Option.some.injEq] at hr'
        subst hr'
        exact Option.noConfusion hb

/-- C1: for every (identifier, identifier_type, endpoint) triple, after `n`
consecutive failed `record_attempt` calls all made within the 15-minute
window opened by the first one, with `n` at least the endpoint's limit, a
`get_status` call at the time of the last failure reports
`is_blocked = true` and `attempts_remaining = 0`. -/
theorem C1_limit_failures_block (endpoint : String) (t : Nat → Int) (n : Nat)
    (h0 : 0 < n) (hn : get_limit_for_endpoint endpoint ≤ n)
    (hw : ∀ i, i < n → t i - t 0 ≤ windowSeconds) :
    (get_status endpoint (t (n - 1)) (apply_failures endpoint t n)).1.is_blocked
        = true ∧
    (get_status endpoint (t (n - 1)) (apply_failures endpoint t n)).1.attempts_remaining
        = 0 := by
  rw [apply_failures_spec endpoint t n h0 hw, if_pos hn]
  have hdur : 0 < get_block_duration_for_endpoint endpoint :=
    lt_of_lt_of_le (by norm_num [windowSeconds]) (window_le_duration endpoint)
  have hblocked :
      t (n - 1) < t (n - 1) + get_block_duration_for_endpoint endpoint := by omega
  have hused : ¬ (t (n - 1) - t 0 > windowSeconds) := by
    have := hw (n - 1) (by omega)
    omega
  simp only [get_status, if_pos hblocked, if_neg hused]
  exact ⟨trivial, Nat.sub_eq_zero_of_le hn⟩

/-- C1 witness: five failures at time 0 on `login` (limit 5) leave the
triple blocked with no attempts remaining. -/
theorem C1_limit_failures_block_witness :
    get_limit_for_endpoint "login" ≤ 5 ∧
    ((get_status "login" 0 (apply_failures "login" (fun _ => 0) 5)).1.is_blocked
        = true ∧
      (get_status "login" 0
          (apply_failures "login" (fun _ => 0) 5)).1.attempts_remaining = 0) :=
  ⟨by decide,
    C1_limit_failures_block "login" (fun _ => 0) 5 (by norm_num) (by decide)
      (fun i _ => by norm_num [windowSeconds])⟩

/-- C2: a `record_attempt` call with `success = true` deletes any existing
row for the triple and returns not-blocked, and the very next `get_status`
call reports a clean state (0 used, full limit remaining, not blocked),
regardless of the prior row contents. -/
theorem C2_success_clears (endpoint : String) (now later : Int)
    (state : Option Record) :
    record_attempt endpoint now true state = (false, none) ∧
    (get_status endpoint later (record_attempt endpoint now true state).2).1 =
      ⟨false, 0, get_limit_for_endpoint endpoint,
        get_limit_for_endpoint endpoint, none, none, none⟩ := by
  refine ⟨by simp [record_attempt], ?_⟩
  simp [record_attempt, get_status]

/-- C3: a failed `record_attempt` on an existing row made when
`now - first_attempt` exceeds 15 minutes starts a fresh window: the count
becomes 1 (not incremented), `first_attempt` becomes `now`, and
`blocked_until` is cleared; the call returns not-blocked. -/
theorem C3_fresh_window (endpoint : String) (now : Int) (r : Record)
    (hwin : now - r.first_attempt > windowSeconds) :
    record_attempt endpoint now false (some r) =
      (false, some ⟨1, now, now, none⟩) := by
  have h1 : ¬ get_limit_for_endpoint endpoint ≤ 1 := by
    have := three_le_limit endpoint
    omega
  simp only [record_attempt, Bool.false_eq_true, if_false, if_pos hwin,
    if_neg h1]
  rfl

/-- C3 witness: a failure at time 901 on a row whose window opened at time
0 (and which is even still nominally blocked until 1000) resets the row to
a fresh one-attempt window. -/
theorem C3_fresh_window_witness :
    (901 : Int) - (0 : Int) > windowSeconds ∧
    record_attempt "login" 901 false (some ⟨3, 0, 0, some 1000⟩) =
      (false, some ⟨1, 901, 901, none⟩) :=
  ⟨by norm_num [windowSeconds],
    C3_fresh_window "login" 901 ⟨3, 0, 0, some 1000⟩
      (by norm_num [windowSeconds])⟩

/-- C4: an already-expired block is cleared before any other logic affects
the result. A `get_status` call on a row whose `blocked_until` lies
strictly in the past reports not-blocked and leaves the row with
`blocked_until = none` and `attempt_count = 0`. A `record_attempt` call on
such a row (where, as the code maintains, the block extends at least a
full window past `first_attempt`) returns not-blocked and leaves either no
row (success) or a fresh one-attempt row with `blocked_until = none`
(failure), so the block is never sticky past its expiry. -/
theorem C4_expired_block_cleared :
    (∀ (endpoint : String) (now : Int) (r : Record) (b : Int),
      r.blocked_until = some b → b < now →
      (get_status endpoint now (some r)).1.is_blocked = false ∧
      (get_status endpoint now (some r)).2 =
        some ⟨0, r.first_attempt, r.last_attempt, none⟩) ∧
    (∀ (endpoint : String) (now : Int) (success : Bool) (r : Record) (b : Int),
      r.blocked_until = some b → b < now →
      r.first_attempt + windowSeconds ≤ b →
      (record_attempt endpoint now success (some r)).1 = false ∧
      ((record_attempt endpoint now success (some r)).2 = none ∨
        (record_attempt endpoint now success (some r)).2 =
          some ⟨1, now, now, none⟩)) := by
  constructor
  · intro endpoint now r b hb hlt
    have hnl : ¬ now < b := by omega
    simp [get_status, hb, hnl]
  · intro endpoint now success r b hb hlt hfw
    cases success with
    | true => simp [record_attempt]
    | false =>
        have hwin : now - r.first_attempt > windowSeconds := by omega
        have h1 : ¬ get_limit_for_endpoint endpoint ≤ 1 := by
          have := three_le_limit endpoint
          omega
        simp only [record_attempt, Bool.false_eq_true, if_false,
          if_pos hwin, if_neg h1]
        simp

/-- C4 witness: a row blocked until time 1000 with window start 0, seen at
time 1001, is cleared by `get_status` and by a failed `record_attempt`. -/
theorem C4_expired_block_cleared_witness :
    Record.blocked_until ⟨5, 0, 0, some 1000⟩ = some 1000 ∧
    (1000 : Int) < 1001 ∧ (0 : Int) + windowSeconds ≤ 1000 ∧
    (get_status "login" 1001 (some ⟨5, 0, 0, some 1000⟩)).1.is_blocked = false ∧
    (get_status "login" 1001 (some ⟨5, 0, 0, some 1000⟩)).2 =
      some ⟨0, 0, 0, none⟩ ∧
    (record_attempt "login" 1001 false (some ⟨5, 0, 0, some 1000⟩)).1 = false ∧
    ((record_attempt "login" 1001 false (some ⟨5, 0, 0, some 1000⟩)).2 = none ∨
      (record_attempt "login" 1001 false (some ⟨5, 0, 0, some 1000⟩)).2 =
        some ⟨1, 1001, 1001, none⟩) :=
  ⟨rfl, by norm_num, by norm_num [windowSeconds],
    (C4_expired_block_cleared.1 "login" 1001 ⟨5, 0, 0, some 1000⟩ 1000 rfl
      (by norm_num)).1,
    (C4_expired_block_cleared.1 "login" 1001 ⟨5, 0, 0, some 1000⟩ 1000 rfl
      (by norm_num)).2,
    (C4_expired_block_cleared.2 "login" 1001 false ⟨5, 0, 0, some 1000⟩ 1000 rfl
      (by norm_num) (by norm_num [windowSeconds])).1,
    (C4_expired_block_cleared.2 "login" 1001 false ⟨5, 0, 0, some 1000⟩ 1000 rfl
      (by norm_num) (by norm_num [windowSeconds])).2⟩

/-- C6 counterexample: a row blocked until time 60, seen at time 0, has
exactly 60 seconds remaining; the code reports `time_remaining_minutes = 2`
while the ceiling of 60 seconds ÷ 60 is 1, so the reported value is not the
ceiling when the remaining time is an exact multiple of a minute. -/
theorem C6_ceiling_counterexample :
    (get_status "verify_2fa" 0 (some ⟨3, 0, 0, some 60⟩)).1.is_blocked = true ∧
    (get_status "verify_2fa" 0 (some ⟨3, 0, 0, some 60⟩)).1.time_remaining =
      some 60 ∧
    (get_status "verify_2fa" 0
        (some ⟨3, 0, 0, some 60⟩)).1.time_remaining_minutes = some 2 ∧
    ((60 : Nat) + 60 - 1) / 60 = 1 ∧
    (get_status "verify_2fa" 0
        (some ⟨3, 0, 0, some 60⟩)).1.time_remaining_minutes ≠
      some (((60 : Nat) + 60 - 1) / 60) := by
  decide

/-- C6 amended: while a row is blocked (`blocked_until` strictly in the
future), `time_remaining_minutes` equals the floor of the remaining
seconds divided by 60, plus 1. This equals the ceiling of the remaining
seconds divided by 60 whenever the remaining seconds are not an exact
multiple of 60, and the ceiling plus 1 when they are; it is at least 1
(never 0 while blocked, and never negative). -/
theorem C6_amended_minutes (endpoint : String) (now : Int) (r : Record)
    (b : Int) (hb : r.blocked_until = some b) (hlt : now < b) :
    (get_status endpoint now (some r)).1.is_blocked = true ∧
    (get_status endpoint now (some r)).1.time_remaining = some (b - now) ∧
    (get_status endpoint now (some r)).1.time_remaining_minutes =
      some ((b - now).toNat / 60 + 1) ∧
    1 ≤ (b - now).toNat / 60 + 1 ∧
    (¬ (60 ∣ (b - now).toNat) →
      (b - now).toNat / 60 + 1 = ((b - now).toNat + 60 - 1) / 60) ∧
    (60 ∣ (b - now).toNat →
      (b - now).toNat / 60 + 1 = ((b - now).toNat + 60 - 1) / 60 + 1) := by
  refine ⟨?_, ?_, ?_, by omega, ?_, ?_⟩
  · simp [get_status, hb, hlt]
  · simp [get_status, hb, hlt]
  · simp [get_status, hb, hlt]
  · intro h
    omega
  · intro h
    omega

/-- C6 amended witness: 90 seconds remaining are reported as 2 minutes,
the ceiling of 90 ÷ 60. -/
theorem C6_amended_minutes_witness :
    Record.blocked_until ⟨3, 0, 0, some 90⟩ = some 90 ∧ (0 : Int) < 90 ∧
    (get_status "verify_2fa" 0
        (some ⟨3, 0, 0, some 90⟩)).1.time_remaining_minutes =
      some (((90 : Int) - 0).toNat / 60 + 1) :=
  ⟨rfl, by norm_num,
    (C6_amended_minutes "verify_2fa" 0 ⟨3, 0, 0, some 90⟩ 90 rfl
      (by norm_num)).2.2.1⟩

/-- C7: the per-endpoint attempt limits and block durations equal the
static configuration table: login 5 / 30 min, forgot_password 3 / 60 min,
reset_password 3 / 60 min, verify_2fa 3 / 15 min, register 5 / 30 min, and
any unlisted endpoint 5 / 30 min (durations in seconds). -/
theorem C7_endpoint_config :
    get_limit_for_endpoint "login" = 5 ∧
    get_block_duration_for_endpoint "login" = 30 * 60 ∧
    get_limit_for_endpoint "forgot_password" = 3 ∧
    get_block_duration_for_endpoint "forgot_password" = 60 * 60 ∧
    get_limit_for_endpoint "reset_password" = 3 ∧
    get_block_duration_for_endpoint "reset_password" = 60 * 60 ∧
    get_limit_for_endpoint "verify_2fa" = 3 ∧
    get_block_duration_for_endpoint "verify_2fa" = 15 * 60 ∧
    get_limit_for_endpoint "register" = 5 ∧
    get_block_duration_for_endpoint "register" = 30 * 60 ∧
    ∀ endpoint : String, endpoint ≠ "login" → endpoint ≠ "forgot_password" →
      endpoint ≠ "reset_password" → endpoint ≠ "verify_2fa" →
      endpoint ≠ "register" →
      get_limit_for_endpoint endpoint = 5 ∧
      get_block_duration_for_endpoint endpoint = 30 * 60 := by
  refine ⟨by decide, by decide, by decide, by decide, by decide, by decide,
    by decide, by decide, by decide, by decide, ?_⟩
  intro endpoint h1 h2 h3 h4 h5
  constructor
  · simp [get_limit_for_endpoint, h1, h2, h3, h4, h5]
  · simp [get_block_duration_for_endpoint, h1, h2, h3, h4, h5]

/-- C7 witness: the unlisted endpoint string "unblock" gets the default
limit 5 and default 30-minute block. -/
theorem C7_endpoint_config_witness :
    ("unblock" : String) ≠ "login" ∧
    get_limit_for_endpoint "unblock" = 5 ∧
    get_block_duration_for_endpoint "unblock" = 30 * 60 :=
  ⟨by decide,
    C7_endpoint_config.2.2.2.2.2.2.2.2.2.2 "unblock" (by decide) (by decide)
      (by decide) (by decide) (by decide)⟩

/-- C8: `get_status` never mutates the stored row except when
`blocked_until` is set and already expired (then `blocked_until` becomes
`none` and `attempt_count` becomes 0). With no row the store stays empty;
in every other case — actively blocked or unblocked — the row is returned
unchanged, even when the 15-minute window has elapsed and `attempts_used`
is reported as 0. -/
theorem C8_get_status_frame :
    (∀ (endpoint : String) (now : Int),
      (get_status endpoint now none).2 = none) ∧
    (∀ (endpoint : String) (now : Int) (r : Record),
      (get_status endpoint now (some r)).2 =
        match r.blocked_until with
        | some b =>
            if b ≤ now then some ⟨0, r.first_attempt, r.last_attempt, none⟩
            else some r
        | none => some r) ∧
    (∀ (endpoint : String) (now : Int) (r : Record),
      (∀ b, r.blocked_until = some b → now < b) →
      now - r.first_attempt > windowSeconds →
      (get_status endpoint now (some r)).1.attempts_used = 0 ∧
      (get_status endpoint now (some r)).2 = some r) := by
  refine ⟨fun endpoint now => rfl, ?_, ?_⟩
  · intro endpoint now r
    rcases h : r.blocked_until with _ | b
    · simp [get_status, h]
    · by_cases hlt : now < b
      · have hnb : ¬ b ≤ now := by omega
        simp [get_status, h, hlt, hnb]
      · have hle : b ≤ now := by omega
        simp [get_status, h, hlt, hle]
  · intro endpoint now r hfut hwin
    rcases h : r.blocked_until with _ | b
    · simp [get_status, h, hwin]
    · have hlt := hfut b h
      simp [get_status, h, hlt, hwin]

/-- C8 witness: an unblocked row whose window has elapsed is reported with
0 attempts used but left physically unchanged in the store. -/
theorem C8_get_status_frame_witness :
    (1000 : Int) - (0 : Int) > windowSeconds ∧
    (get_status "login" 1000 (some ⟨3, 0, 0, none⟩)).1.attempts_used = 0 ∧
    (get_status "login" 1000 (some ⟨3, 0, 0, none⟩)).2 = some ⟨3, 0, 0, none⟩ :=
  ⟨by norm_num [windowSeconds],
    C8_get_status_frame.2.2 "login" 1000 ⟨3, 0, 0, none⟩
      (fun b h => Option.noConfusion h) (by norm_num [windowSeconds])⟩

/-- C9: for any endpoint whose limit exceeds 1, a failed `record_attempt`
made while `blocked_until` is still strictly in the future but more than
15 minutes after `first_attempt` lifts the still-active block: the row
becomes a fresh one-attempt window with `blocked_until = none` and the
call returns not-blocked. -/
theorem C9_reset_overrides_block (endpoint : String) (now : Int) (r : Record)
    (b : Int) (hb : r.blocked_until = some b) (hfut : now < b)
    (hwin : now - r.first_attempt > windowSeconds)
    (hlim : 1 < get_limit_for_endpoint endpoint) :
    record_attempt endpoint now false (some r) =
      (false, some ⟨1, now, now, none⟩) := by
  have h1 : ¬ get_limit_for_endpoint endpoint ≤ 1 := by omega
  simp only [record_attempt, Bool.false_eq_true, if_false, if_pos hwin,
    if_neg h1]
  rfl

/-- C9 witness: a row blocked until time 2000, hit by a failure at time
950 (more than 15 minutes after its window start 0), is reset to a fresh
unblocked one-attempt row. -/
theorem C9_reset_overrides_block_witness :
    Record.blocked_until ⟨3, 0, 0, some 2000⟩ = some 2000 ∧
    (950 : Int) < 2000 ∧ (950 : Int) - (0 : Int) > windowSeconds ∧
    1 < get_limit_for_endpoint "verify_2fa" ∧
    record_attempt "verify_2fa" 950 false (some ⟨3, 0, 0, some 2000⟩) =
      (false, some ⟨1, 950, 950, none⟩) :=
  ⟨rfl, by norm_num, by norm_num [windowSeconds], by decide,
    C9_reset_overrides_block "verify_2fa" 950 ⟨3, 0, 0, some 2000⟩ 2000 rfl
      (by norm_num) (by norm_num [windowSeconds]) (by decide)⟩

/-- C10: a failed `record_attempt` made while a block is active and within
15 minutes of `first_attempt` (on a row whose count has reached the limit,
as the code maintains for blocked rows) extends the block: the count is
incremented (staying at or above the limit) and `blocked_until` is
reassigned to `now` plus the endpoint's full block duration. -/
theorem C10_failure_extends_block (endpoint : String) (now : Int)
    (r : Record) (b : Int) (hb : r.blocked_until = some b) (hfut : now < b)
    (hwin : now - r.first_attempt ≤ windowSeconds)
    (hcnt : get_limit_for_endpoint endpoint ≤ r.attempt_count) :
    record_attempt endpoint now false (some r) =
      (true, some ⟨r.attempt_count + 1, r.first_attempt, now,
        some (now + get_block_duration_for_endpoint endpoint)⟩) ∧
    get_limit_for_endpoint endpoint ≤ r.attempt_count + 1 := by
  have hl : get_limit_for_endpoint endpoint ≤ r.attempt_count + 1 := by omega
  have hnw : ¬ (now - r.first_attempt > windowSeconds) := by omega
  refine ⟨?_, hl⟩
  simp only [record_attempt, Bool.false_eq_true, if_false, if_neg hnw,
    if_pos hl]
  rfl

/-- C10 witness: a blocked row with count 3 on `verify_2fa` (limit 3),
hit by a failure at time 100 within its window, moves to count 4 and a new
block expiring at 100 plus the full 15-minute duration. -/
theorem C10_failure_extends_block_witness :
    Record.blocked_until ⟨3, 0, 0, some 900⟩ = some 900 ∧
    (100 : Int) < 900 ∧ (100 : Int) - (0 : Int) ≤ windowSeconds ∧
    get_limit_for_endpoint "verify_2fa" ≤ 3 ∧
    record_attempt "verify_2fa" 100 false (some ⟨3, 0, 0, some 900⟩) =
      (true, some ⟨4, 0, 100,
        some (100 + get_block_duration_for_endpoint "verify_2fa")⟩) :=
  ⟨rfl, by norm_num, by norm_num [windowSeconds], by decide,
    (C10_failure_extends_block "verify_2fa" 100 ⟨3, 0, 0, some 900⟩ 900 rfl
      (by norm_num) (by norm_num [windowSeconds]) (by decide)).1⟩

end RateLimit

namespace RateLimiter

open RateLimit

/-- C5: every login attempt is checked and recorded against both the IP
key and the username key independently, and the more restrictive result
wins: the pre-check rejects exactly when either key's status is blocked,
and rejects attributing the block to the IP whenever the IP key is
blocked; recording reports blocked exactly when either key's
`record_attempt` does. In particular, a username with 4 prior failures
(not blocked) combined with an IP with 5 prior failures (blocked) yields a
blocked result attributed to the IP. -/
theorem C5_dual_key_login :
    (∀ (now : Int) (ipState userState : Option Record),
      ((rate_limit_check_login now ipState userState).1).isSome =
        ((get_status "login" now ipState).1.is_blocked ||
          (get_status "login" now userState).1.is_blocked)) ∧
    (∀ (now : Int) (ipState userState : Option Record),
      (get_status "login" now ipState).1.is_blocked = true →
      (rate_limit_check_login now ipState userState).1 = some IdType.ip) ∧
    (∀ (now : Int) (success : Bool) (ipState userState : Option Record),
      (record_login_attempt now success ipState userState).1.1 =
        ((RateLimit.record_attempt "login" now success ipState).1 ||
          (RateLimit.record_attempt "login" now success userState).1)) ∧
    ((get_status "login" 60 (some ⟨4, 0, 0, none⟩)).1.is_blocked = false ∧
      (get_status "login" 60 (some ⟨5, 0, 0, some 1800⟩)).1.is_blocked = true ∧
      (rate_limit_check_login 60 (some ⟨5, 0, 0, some 1800⟩)
          (some ⟨4, 0, 0, none⟩)).1 = some IdType.ip) := by
  refine ⟨?_, ?_, ?_, by decide, by decide, by decide⟩
  · intro now ipState userState
    unfold rate_limit_check_login check_rate_limit
    by_cases hip : (get_status "login" now ipState).1.is_blocked
    · simp [hip]
    · by_cases huser : (get_status "login" now userState).1.is_blocked
      · simp [hip, huser]
      · simp [hip, huser]
  · intro now ipState userState hip
    unfold rate_limit_check_login check_rate_limit
    simp [hip]
  · intro now success ipState userState
    unfold record_login_attempt record_attempt_helper
    by_cases hu : (RateLimit.record_attempt "login" now success userState).1
    · simp [hu]
    · by_cases hi : (RateLimit.record_attempt "login" now success ipState).1
      · simp [hu, hi]
      · simp [hu, hi]

/-- C5 witness: the dual-key pre-check at the concrete blocked-IP /
near-limit-username pair of states reports blocked, attributed to the
IP. -/
theorem C5_dual_key_login_witness :
    (get_status "login" 60 (some ⟨5, 0, 0, some 1800⟩)).1.is_blocked = true ∧
    (rate_limit_check_login 60 (some ⟨5, 0, 0, some 1800⟩)
        (some ⟨4, 0, 0, none⟩)).1 = some IdType.ip :=
  ⟨by decide,
    C5_dual_key_login.2.1 60 (some ⟨5, 0, 0, some 1800⟩)
      (some ⟨4, 0, 0, none⟩) (by decide)⟩

end RateLimiter
